import Mathlib

/-!
Shallow embedding of the flask-railway-app repository and proofs about it.

The embedding follows the Python sources:
  * `src/modules/matricula/routes.py` (deterministic membership codes,
    generation endpoints),
  * `src/models.py` (table shapes and uniqueness constraints),
  * `src/modules/presenca/routes.py` (attendance endpoints),
  * `src/modules/checkin/routes.py` (event check-in endpoint),
  * `src/modules/auth/routes.py` and `src/modules/utils/common.py`
    (login / token helpers),
  * `src/modules/workato/analytics.py` (feed aggregation).

Machine integers are modelled as `Nat` with explicit reductions mod `2 ^ 32`
where the SHA-1 arithmetic overflows; monetary amounts are modelled as `ℚ`
(the Python code uses floats; rationals keep the aggregation algebra exact).
Strings are restricted to their ASCII behaviour, which covers every value the
routes construct and every concrete input used below.
-/

set_option maxRecDepth 100000

namespace App

attribute [local semireducible] Rat.add Rat.mul Rat.inv Rat.sub

/-! ### SHA-1 and HMAC-SHA1 over byte lists (`hmac.new(salt, msg, hashlib.sha1)`) -/

/-- Truncate to 32 bits. -/
def w32 (n : Nat) : Nat := n % 4294967296

/-- Rotate a 32-bit word left by `b` bits. -/
def rotl (b n : Nat) : Nat := w32 ((w32 n <<< b) ||| (w32 n >>> (32 - b)))

/-- ASCII bytes of a string (all strings fed to the digest are ASCII). -/
def strBytes (s : String) : List Nat := s.data.map Char.toNat

/-- Big-endian value of a byte list. -/
def beWord (bs : List Nat) : Nat := bs.foldl (fun a b => a * 256 + b) 0

/-- Big-endian bytes of a 32-bit word. -/
def wordBytes (w : Nat) : List Nat :=
  (List.range 4).map (fun i => (w >>> (8 * (3 - i))) % 256)

/-- SHA-1 padding: append 0x80, zero padding, and the 64-bit bit length. -/
def padMsg (m : List Nat) : List Nat :=
  let len := m.length
  let k := (119 - len % 64) % 64
  let lenBytes := (List.range 8).map (fun i => ((len * 8) >>> (8 * (7 - i))) % 256)
  m ++ [128] ++ List.replicate k 0 ++ lenBytes

/-- Split a byte list into 64-byte blocks (structural recursion on a length
bound, so that the kernel can evaluate it). -/
def chunks64Go : Nat → List Nat → List (List Nat)
  | 0, _ => []
  | _ + 1, [] => []
  | n + 1, a :: rest => ((a :: rest).take 64) :: chunks64Go n ((a :: rest).drop 64)

/-- Split a byte list into 64-byte blocks. -/
def chunks64 (l : List Nat) : List (List Nat) := chunks64Go l.length l

/-- The 16 message words of one 64-byte block. -/
def blockWords (blk : List Nat) : List Nat :=
  (List.range 16).map (fun i => beWord ((blk.drop (4 * i)).take 4))

/-- Extend 16 words to the 80-word SHA-1 schedule. -/
def expandWords (ws : List Nat) : List Nat :=
  (List.range 64).foldl
    (fun acc _ =>
      let i := acc.length
      acc ++ [rotl 1 (((acc.getD (i - 3) 0) ^^^ (acc.getD (i - 8) 0)) ^^^
        ((acc.getD (i - 14) 0) ^^^ (acc.getD (i - 16) 0)))])
    ws

/-- SHA-1 round function. -/
def sha1F (t b c d : Nat) : Nat :=
  if t < 20 then (b &&& c) ||| ((b ^^^ 4294967295) &&& d)
  else if t < 40 then (b ^^^ c) ^^^ d
  else if t < 60 then ((b &&& c) ||| (b &&& d)) ||| (c &&& d)
  else (b ^^^ c) ^^^ d

/-- SHA-1 round constants. -/
def sha1K (t : Nat) : Nat :=
  if t < 20 then 1518500249
  else if t < 40 then 1859775393
  else if t < 60 then 2400959708
  else 3395469782

/-- One SHA-1 block compression. -/
def sha1Compress (h : Nat × Nat × Nat × Nat × Nat) (blk : List Nat) :
    Nat × Nat × Nat × Nat × Nat :=
  let ws := expandWords (blockWords blk)
  let fin := (List.range 80).foldl
    (fun (st : Nat × Nat × Nat × Nat × Nat) t =>
      let tmp := w32 (rotl 5 st.1 + sha1F t st.2.1 st.2.2.1 st.2.2.2.1 +
        st.2.2.2.2 + sha1K t + ws.getD t 0)
      (tmp, st.1, rotl 30 st.2.1, st.2.2.1, st.2.2.2.1))
    h
  (w32 (h.1 + fin.1), w32 (h.2.1 + fin.2.1), w32 (h.2.2.1 + fin.2.2.1),
   w32 (h.2.2.2.1 + fin.2.2.2.1), w32 (h.2.2.2.2 + fin.2.2.2.2))

/-- SHA-1 of a byte list, as the 20 digest bytes. -/
def sha1Bytes (m : List Nat) : List Nat :=
  let fin := (chunks64 (padMsg m)).foldl sha1Compress
    (1732584193, 4023233417, 2562383102, 271733878, 3285377520)
  ([fin.1, fin.2.1, fin.2.2.1, fin.2.2.2.1, fin.2.2.2.2].map wordBytes).flatten

/-- Lowercase hex character of a nibble. -/
def hexChar (n : Nat) : Char :=
  if n < 10 then Char.ofNat (48 + n) else Char.ofNat (87 + n)

/-- Lowercase hex digest string of a byte list (`.hexdigest()`). -/
def hexdigest (bs : List Nat) : String :=
  String.mk (bs.foldr (fun b acc => hexChar (b / 16) :: hexChar (b % 16) :: acc) [])

/-- HMAC-SHA1 (`hmac.new(key, msg, hashlib.sha1).digest()`). -/
def hmacSha1 (key msg : List Nat) : List Nat :=
  let k0 := if key.length > 64 then sha1Bytes key else key
  let kp := k0 ++ List.replicate (64 - k0.length) 0
  sha1Bytes ((kp.map (fun b => b ^^^ 92)) ++
    sha1Bytes ((kp.map (fun b => b ^^^ 54)) ++ msg))

/-- Value of a lowercase hex character. -/
def hexVal (c : Char) : Nat := if c.isDigit then c.toNat - 48 else c.toNat - 87

/-- `int(digest[:8], 16)`: value of the first 8 hex characters. -/
def first8Val (s : String) : Nat :=
  (s.data.take 8).foldl (fun a c => a * 16 + hexVal c) 0

/-! ### `modules/matricula/routes.py` helpers -/

/-- `_only_digits`: drop every non-digit character (`re.sub(r"\D+", "", s)`). -/
def onlyDigits (s : String) : String := String.mk (s.data.filter Char.isDigit)

/-- `str(n).zfill(w)`. -/
def zfill (s : String) (w : Nat) : String :=
  String.mk (List.replicate (w - s.length) '0') ++ s

/-- Resolved configuration of the code generator: `MATRICULA_SALT`,
`MATRICULA_DIGITS`, `MATRICULA_PREFIX` with their defaults. -/
structure MatConfig where
  salt : String := "salt-fixo-para-matricula"
  digits : Nat := 5
  pfx : String := "MR"
deriving DecidableEq

/-- `_code_from_cpf`: deterministic membership code from a CPF string. -/
def codeFromCpf (cfg : MatConfig) (cpfRaw : String) : String :=
  let cpfDigits := onlyDigits cpfRaw
  let digest := hexdigest (hmacSha1 (strBytes cfg.salt) (strBytes cpfDigits))
  let n := first8Val digest % (10 ^ cfg.digits)
  cfg.pfx ++ zfill (toString n) cfg.digits

/-! ### Python string primitives

The routes only exercise these on ASCII data; they are defined on the
character list so that the kernel can evaluate them. -/

/-- The whitespace `str.strip()` removes (ASCII portion). -/
def isSpaceChar (c : Char) : Bool :=
  c = ' ' || c = '\t' || c = '\n' || c = '\r' || c = '\x0b' || c = '\x0c'

/-- Python `str.strip()`. -/
def pyStrip (s : String) : String :=
  String.mk (((s.data.dropWhile isSpaceChar).reverse.dropWhile isSpaceChar).reverse)

/-- Python `str.upper()` (ASCII). -/
def pyUpper (s : String) : String := String.mk (s.data.map Char.toUpper)

/-- Python `str.lower()` (ASCII). -/
def pyLower (s : String) : String := String.mk (s.data.map Char.toLower)

/-- Python `s[:n]`. -/
def strTake (s : String) (n : Nat) : String := String.mk (s.data.take n)

/-- Python `s[n:]`. -/
def strDrop (s : String) (n : Nat) : String := String.mk (s.data.drop n)

/-! ### Validation helpers of `modules/matricula/routes.py` -/

/-- `FORMAT = re.compile(r"^MR\d{5}$")` restricted to ASCII digits, which
covers every code the application constructs. -/
def formatOk (s : String) : Bool :=
  s.length = 7 && strTake s 2 = "MR" && (strDrop s 2).data.all Char.isDigit

/-- `_is_valid_cpf_digits`: exactly 11 digits after stripping non-digits. -/
def isValidCpfDigits (d : String) : Bool :=
  (onlyDigits d).length = 11 && (onlyDigits d).data.all Char.isDigit

/-- `DATE_RE = re.compile(r"^\d{2}/\d{2}/\d{4}$")` (ASCII digits). -/
def dateReOk (s : String) : Bool :=
  match s.data with
  | [d1, d2, s1, m1, m2, s2, y1, y2, y3, y4] =>
      d1.isDigit && d2.isDigit && s1 = '/' && m1.isDigit && m2.isDigit &&
      s2 = '/' && y1.isDigit && y2.isDigit && y3.isDigit && y4.isDigit
  | _ => false

/-- Numeric value of an ASCII digit character. -/
def digitVal (c : Char) : Nat := c.toNat - 48

/-- Gregorian leap year, as `datetime` uses. -/
def isLeap (y : Nat) : Bool := (y % 4 = 0 && y % 100 ≠ 0) || y % 400 = 0

/-- Days in a month, as `datetime` uses. -/
def daysInMonth (y m : Nat) : Nat :=
  if m = 2 then (if isLeap y then 29 else 28)
  else if m = 4 || m = 6 || m = 9 || m = 11 then 30
  else 31

/-- `datetime.date(y, m, d)`, encoded as `y * 10000 + m * 100 + d`; `none`
models the `ValueError` for out-of-range components (`MINYEAR = 1`,
`MAXYEAR = 9999`). -/
def mkDate (y m d : Nat) : Option Nat :=
  if 1 ≤ y && y ≤ 9999 && 1 ≤ m && m ≤ 12 && 1 ≤ d && d ≤ daysInMonth y m
  then some (y * 10000 + m * 100 + d) else none

/-- `_parse_birth_date`: strict `DD/MM/AAAA` to a date, `none` if invalid. -/
def parseBirthDate (raw : String) : Option Nat :=
  let r := pyStrip raw
  if r = "" || !dateReOk r then none
  else match r.data with
    | [d1, d2, _, m1, m2, _, y1, y2, y3, y4] =>
        mkDate (digitVal y1 * 1000 + digitVal y2 * 100 + digitVal y3 * 10 + digitVal y4)
          (digitVal m1 * 10 + digitVal m2) (digitVal d1 * 10 + digitVal d2)
    | _ => none

/-- ISO `YYYY-MM-DD` rendering of an encoded date (`date.isoformat()`). -/
def isoOfEncoded (d : Nat) : String :=
  zfill (toString (d / 10000)) 4 ++ "-" ++ zfill (toString (d / 100 % 100)) 2 ++
    "-" ++ zfill (toString (d % 100)) 2

/-- Python `a or b` on optional strings (empty string is falsy). -/
def pyOrStr (a b : Option String) : Option String :=
  match a with
  | some s => if s = "" then b else some s
  | none => b

/-- Truthiness of an optional string. -/
def strTruthy : Option String → Bool
  | none => false
  | some s => decide (s ≠ "")

/-! ### `models.py` Matricula rows and the generation endpoints

The `birth_date` column is written by these routes with `datetime.date`
values (or left `NULL`); it is modelled as an encoded date. -/

/-- One row of the `matriculas` table. -/
structure MatricRow where
  id : Nat
  code : String
  cpf : String
  birthDate : Option Nat := none
  holderName : Option String := none
  status : String := "active"
deriving DecidableEq

/-- The JSON object produced for a matrícula by the `gerar` endpoints. -/
structure MatJson where
  code : String
  cpf : String
  birthDate : Option String
  holderName : Option String
  status : String
deriving DecidableEq

/-- Response of `POST /matricula/gerar`. -/
inductive GerarResp
  | err (status : Nat) (msg : String)
  | ok (status : Nat) (m : MatJson)
deriving DecidableEq

/-- Request body of `POST /matricula/gerar` (absent keys are `none`). -/
structure GerarReq where
  cpf : Option String := none
  birthDate : Option String := none
  birth : Option String := none
  holderName : Option String := none

/-- `gerar_post`: create (or return) the matrícula for a CPF. `nid` is the
autoincrement id the insert would receive. -/
def gerarPost (cfg : MatConfig) (db : List MatricRow) (nid : Nat) (rq : GerarReq) :
    List MatricRow × GerarResp :=
  let cpf := onlyDigits (rq.cpf.getD "")
  let birthRaw := pyOrStr rq.birthDate rq.birth
  let holderName := if pyStrip (rq.holderName.getD "") = "" then none
    else some (pyStrip (rq.holderName.getD ""))
  if !isValidCpfDigits cpf then
    (db, .err 400 "CPF inválido. Envie 11 dígitos (com ou sem .-).")
  else
    let birthDate := if strTruthy birthRaw then parseBirthDate (birthRaw.getD "") else none
    if strTruthy birthRaw && birthDate.isNone then
      (db, .err 400 "Data de nascimento inválida. Use DD/MM/AAAA.")
    else
      match db.find? (fun r => r.cpf = cpf) with
      | some ex =>
          let ex2 := { ex with
            birthDate := if birthDate.isSome && ex.birthDate.isNone then birthDate
              else ex.birthDate,
            holderName := if holderName.isSome && ex.holderName.isNone then holderName
              else ex.holderName }
          (db.map (fun r => if r.id = ex.id then ex2 else r),
           .ok 200 ⟨ex2.code, ex2.cpf, ex2.birthDate.map isoOfEncoded,
             ex2.holderName, ex2.status⟩)
      | none =>
          let code0 := codeFromCpf cfg cpf
          let code := if (db.find? (fun r => r.code = code0)).isSome
            then codeFromCpf cfg (cpf ++ "|1") else code0
          let m : MatricRow := ⟨nid, code, cpf, birthDate, holderName, "active"⟩
          (db ++ [m],
           .ok 200 ⟨m.code, m.cpf, m.birthDate.map isoOfEncoded, m.holderName, m.status⟩)

/-- Response of `POST /matricula/api/check`. -/
structure ApiCheckOut where
  status : Nat
  ok : Bool
  code : Option String
  message : String
deriving DecidableEq

/-- `api_check`: validate a membership code sent as `{"matricula": ...}`. -/
def apiCheck (db : List MatricRow) (matriculaField : Option String) : ApiCheckOut :=
  let code := pyStrip (pyUpper (matriculaField.getD ""))
  if code = "" then ⟨400, false, none, "Informe a matrícula."⟩
  else if !formatOk code then
    ⟨200, false, some code, "Formato inválido. Use MR + 5 dígitos."⟩
  else match db.find? (fun r => r.code = code) with
    | none => ⟨200, false, some code, "Matrícula não encontrada."⟩
    | some m =>
        if m.status ≠ "active" then
          ⟨200, false, some code, "Matrícula inativa (status: " ++ m.status ++ ")."⟩
        else ⟨200, true, some code, "Matrícula " ++ code ++ " validada."⟩

/-- Response of `GET /matricula/validate`. -/
structure ValidateOut where
  status : Nat
  valid : Bool
  message : Option String := none
  code : Option String := none
  rowStatus : Option String := none
  cpf : Option String := none
deriving DecidableEq

/-- `validate`: validation via `?code=` for integrations. -/
def validateCode (db : List MatricRow) (codeArg : Option String) : ValidateOut :=
  let code := pyUpper (pyStrip (codeArg.getD ""))
  if !formatOk code then
    ⟨400, false, some "Formato inválido (MR + 5 dígitos)", none, none, none⟩
  else match db.find? (fun r => r.code = code) with
    | none => ⟨404, false, some "Matrícula não encontrada", none, none, none⟩
    | some m => ⟨200, m.status = "active", none, some m.code, some m.status, some m.cpf⟩

/-- Response of `POST /matricula/api/lembrar`. -/
structure LembrarOut where
  status : Nat
  ok : Bool
  message : Option String := none
  code : Option String := none
  holderName : Option String := none
deriving DecidableEq

/-- `api_lembrar`: recover the code from CPF + birth date. -/
def apiLembrar (db : List MatricRow)
    (cpfField birthDateField birthField : Option String) : LembrarOut :=
  let cpf := onlyDigits (cpfField.getD "")
  let birthRaw := pyOrStr birthDateField birthField
  let birth := parseBirthDate (birthRaw.getD "")
  if !isValidCpfDigits cpf then
    ⟨400, false, some "CPF inválido. Informe 11 dígitos.", none, none⟩
  else if birth.isNone then
    ⟨400, false, some "Data de nascimento inválida. Use DD/MM/AAAA.", none, none⟩
  else match db.find? (fun r => r.cpf = cpf && r.birthDate = birth) with
    | none =>
        ⟨200, false, some "Não encontramos matrícula para os dados informados.", none, none⟩
    | some m =>
        if m.status ≠ "active" then
          ⟨200, false,
            some ("Matrícula localizada, porém está \x27" ++ m.status ++ "\x27."), none, none⟩
        else ⟨200, true, none, some m.code, m.holderName⟩

/-- JSON object of the `gerar_dados` endpoints (the GET variant omits
`holder_name`). -/
structure DadosGetJson where
  code : String
  cpf : String
  birthDate : Option String
  status : String
deriving DecidableEq

/-- Response of `GET /matricula/gerar_dados`. -/
inductive DadosGetResp
  | err (status : Nat) (msg : String)
  | ok (status : Nat) (m : DadosGetJson)
deriving DecidableEq

/-- `gerar_com_dados_get`. Returns `none` for the response when the handler
body ends without executing a `return` (Python then yields `None`): the
record-creation code at lines 422-439 of `modules/matricula/routes.py` sits
inside `_json_matricula` after that helper has already returned, so it is
unreachable, and the branch for a CPF with no existing record runs off the
end of `gerar_com_dados_get`. -/
def gerarComDadosGet (db : List MatricRow)
    (cpfArg birthArg birthDateArg : Option String) :
    List MatricRow × Option DadosGetResp :=
  let cpf := onlyDigits (cpfArg.getD "")
  let birthRaw := pyOrStr birthArg birthDateArg
  let birth := parseBirthDate (birthRaw.getD "")
  if !isValidCpfDigits cpf then
    (db, some (.err 400 "CPF inválido. Envie 11 dígitos."))
  else if birth.isNone then
    (db, some (.err 400 "Data de nascimento inválida. Use DD/MM/AAAA."))
  else match db.find? (fun r => r.cpf = cpf) with
    | some ex =>
        if ex.birthDate.isSome && ex.birthDate ≠ birth then
          (db, some (.err 409 "Data de nascimento não confere para este CPF."))
        else
          let ex2 := if ex.birthDate.isNone then { ex with birthDate := birth } else ex
          (db.map (fun r => if r.id = ex.id then ex2 else r),
           some (.ok 200 ⟨ex2.code, ex2.cpf, ex2.birthDate.map isoOfEncoded, ex2.status⟩))
    | none => (db, none)

/-- Response of `POST /matricula/gerar_dados`. -/
inductive DadosPostResp
  | err (status : Nat) (msg : String)
  | ok (status : Nat) (m : MatJson)
deriving DecidableEq

/-- `gerar_com_dados_post`: create (or return) the matrícula from CPF plus
birth date. -/
def gerarComDadosPost (cfg : MatConfig) (db : List MatricRow) (nid : Nat)
    (cpfField birthField birthDateField : Option String) :
    List MatricRow × DadosPostResp :=
  let cpf := onlyDigits (cpfField.getD "")
  let birthRaw := pyOrStr birthField birthDateField
  let birth := parseBirthDate (birthRaw.getD "")
  if !isValidCpfDigits cpf then
    (db, .err 400 "CPF inválido. Envie 11 dígitos.")
  else if birth.isNone then
    (db, .err 400 "Data de nascimento inválida. Use DD/MM/AAAA.")
  else
    let rows := db.filter (fun r => r.cpf = cpf)
    if rows ≠ [] then
      match rows.find? (fun r => r.birthDate = birth) with
      | some r =>
          (db, .ok 200 ⟨r.code, r.cpf, r.birthDate.map isoOfEncoded, r.holderName, r.status⟩)
      | none =>
          match rows.find? (fun r => r.birthDate.isNone) with
          | some r =>
              let r2 := { r with birthDate := birth }
              (db.map (fun q => if q.id = r.id then r2 else q),
               .ok 200 ⟨r2.code, r2.cpf, r2.birthDate.map isoOfEncoded, r2.holderName, r2.status⟩)
          | none => (db, .err 409 "Data de nascimento não confere para este CPF.")
    else
      let code0 := codeFromCpf cfg cpf
      let code := if (db.find? (fun r => r.code = code0)).isSome
        then codeFromCpf cfg (cpf ++ "|1") else code0
      let m : MatricRow := ⟨nid, code, cpf, birth, none, "active"⟩
      (db ++ [m],
       .ok 200 ⟨m.code, m.cpf, m.birthDate.map isoOfEncoded, m.holderName, m.status⟩)

/-! ### `modules/presenca/routes.py`: attendance endpoints -/

/-- One row of the `presencas` table (the autoincrement id is omitted; the
`uq_presenca_por_dia` constraint concerns `(matricula_id, date_key)`).
`dateKey` is the UTC calendar day, `timestamp` the UTC instant. -/
structure PresRow where
  matriculaId : Nat
  dateKey : Nat
  timestamp : Nat
  ip : String
  userAgent : String
  source : String
deriving DecidableEq

/-- Database state seen by the attendance endpoints. -/
structure PresDb where
  matriculas : List MatricRow
  presencas : List PresRow
deriving DecidableEq

/-- Per-request environment: the clock values and request metadata the
handlers read. -/
structure ReqMeta where
  today : Nat
  now : Nat
  ip : String
  userAgent : String
deriving DecidableEq

/-- JSON response of `GET /presenca/api`. -/
structure PresApiOut where
  status : Nat
  ok : Bool
  msg : Option String := none
  already : Option Bool := none
  code : Option String := none
deriving DecidableEq

/-- `presenca_api`: JSON attendance registration. -/
def presencaApi (db : PresDb) (matriculaArg : Option String) (meta : ReqMeta) :
    PresDb × PresApiOut :=
  let code := pyUpper (pyStrip (matriculaArg.getD ""))
  if !formatOk code then (db, ⟨400, false, some "Formato inválido", none, none⟩)
  else match db.matriculas.find? (fun r => r.code = code) with
    | none => (db, ⟨404, false, some "Matrícula não encontrada", none, none⟩)
    | some m =>
        match db.presencas.find?
            (fun p => p.matriculaId = m.id && p.dateKey = meta.today) with
        | some _ => (db, ⟨200, true, none, some true, some m.code⟩)
        | none =>
            let p : PresRow :=
              ⟨m.id, meta.today, meta.now, meta.ip, strTake meta.userAgent 300, "api"⟩
            ({ db with presencas := db.presencas ++ [p] },
             ⟨200, true, none, some false, some m.code⟩)

/-- Rendered response of the `GET /presenca` HTML page. -/
inductive PageOut
  | form
  | errPage (msg : String)
  | successPage (code : String)
deriving DecidableEq

/-- `presenca_page`: HTML attendance registration. -/
def presencaPage (db : PresDb) (matriculaArg : Option String) (meta : ReqMeta) :
    PresDb × PageOut :=
  let code := pyUpper (pyStrip (matriculaArg.getD ""))
  if code = "" then (db, .form)
  else if !formatOk code then
    (db, .errPage "Formato inválido. Use MR + 5 dígitos (ex: MR25684)")
  else match db.matriculas.find? (fun r => r.code = code) with
    | none => (db, .errPage "Matrícula não encontrada.")
    | some m =>
        if m.status ≠ "active" then
          (db, .errPage ("Matrícula inativa (status: " ++ m.status ++ ")"))
        else match db.presencas.find?
            (fun p => p.matriculaId = m.id && p.dateKey = meta.today) with
          | some _ => (db, .successPage m.code)
          | none =>
              let p : PresRow :=
                ⟨m.id, meta.today, meta.now, meta.ip, strTake meta.userAgent 300, "link"⟩
              ({ db with presencas := db.presencas ++ [p] }, .successPage m.code)

/-- One request to an attendance endpoint. -/
inductive AttReq
  | api (matricula : Option String) (meta : ReqMeta)
  | page (matricula : Option String) (meta : ReqMeta)

/-- Database effect of one attendance request. -/
def attStep (db : PresDb) : AttReq → PresDb
  | .api a m => (presencaApi db a m).1
  | .page a m => (presencaPage db a m).1

/-- Database state after a sequence of attendance requests. -/
def attRun (db : PresDb) (reqs : List AttReq) : PresDb := reqs.foldl attStep db

/-- The `(matricula_id, date_key)` pairs stored in the attendance table. -/
def presPairs (rows : List PresRow) : List (Nat × Nat) :=
  rows.map (fun p => (p.matriculaId, p.dateKey))

/-- The `uq_presenca_por_dia` invariant: at most one attendance row per
`(matricula_id, date_key)` pair. -/
def presUnique (db : PresDb) : Prop := (presPairs db.presencas).Nodup

/-! #### Race semantics for the insert

`dbInsertPresenca` models the SQL insert under the unique constraint: it
raises `IntegrityError` (here `.error ()`) exactly when a row for the same
pair is already committed. The `Race` variants of the handlers take two
snapshots of the table: `rowsAtCheck`, read by the handler's existence
check, and `rowsAtIns`, the committed state the insert executes against
(which may contain a row committed by a concurrent request in between). -/

def dbInsertPresenca (rows : List PresRow) (p : PresRow) :
    Except Unit (List PresRow) :=
  if (rows.find? (fun q => q.matriculaId = p.matriculaId &&
      q.dateKey = p.dateKey)).isSome
  then .error () else .ok (rows ++ [p])

/-- Outcome of a handler that may let a database exception escape. -/
inductive RaceOut (α : Type)
  | resp (a : α)
  | exc
deriving DecidableEq

/-- `presenca_page` with the insert raced against a concurrent commit. The
handler has no `try`/`except`, so a uniqueness violation escapes (`.exc`). -/
def presencaPageRace (mats : List MatricRow) (rowsAtCheck rowsAtIns : List PresRow)
    (matriculaArg : Option String) (meta : ReqMeta) :
    List PresRow × RaceOut PageOut :=
  let code := pyUpper (pyStrip (matriculaArg.getD ""))
  if code = "" then (rowsAtIns, .resp .form)
  else if !formatOk code then
    (rowsAtIns, .resp (.errPage "Formato inválido. Use MR + 5 dígitos (ex: MR25684)"))
  else match mats.find? (fun r => r.code = code) with
    | none => (rowsAtIns, .resp (.errPage "Matrícula não encontrada."))
    | some m =>
        if m.status ≠ "active" then
          (rowsAtIns, .resp (.errPage ("Matrícula inativa (status: " ++ m.status ++ ")")))
        else match rowsAtCheck.find?
            (fun p => p.matriculaId = m.id && p.dateKey = meta.today) with
          | some _ => (rowsAtIns, .resp (.successPage m.code))
          | none =>
              let p : PresRow :=
                ⟨m.id, meta.today, meta.now, meta.ip, strTake meta.userAgent 300, "link"⟩
              match dbInsertPresenca rowsAtIns p with
              | .ok rows2 => (rows2, .resp (.successPage m.code))
              | .error _ => (rowsAtIns, .exc)

/-- `presenca_api` with the insert raced against a concurrent commit; again
no `try`/`except` around the insert. -/
def presencaApiRace (mats : List MatricRow) (rowsAtCheck rowsAtIns : List PresRow)
    (matriculaArg : Option String) (meta : ReqMeta) :
    List PresRow × RaceOut PresApiOut :=
  let code := pyUpper (pyStrip (matriculaArg.getD ""))
  if !formatOk code then
    (rowsAtIns, .resp ⟨400, false, some "Formato inválido", none, none⟩)
  else match mats.find? (fun r => r.code = code) with
    | none => (rowsAtIns, .resp ⟨404, false, some "Matrícula não encontrada", none, none⟩)
    | some m =>
        match rowsAtCheck.find?
            (fun p => p.matriculaId = m.id && p.dateKey = meta.today) with
        | some _ => (rowsAtIns, .resp ⟨200, true, none, some true, some m.code⟩)
        | none =>
            let p : PresRow :=
              ⟨m.id, meta.today, meta.now, meta.ip, strTake meta.userAgent 300, "api"⟩
            match dbInsertPresenca rowsAtIns p with
            | .ok rows2 => (rows2, .resp ⟨200, true, none, some false, some m.code⟩)
            | .error _ => (rowsAtIns, .exc)

/-! ### `modules/checkin/routes.py`: event check-in -/

/-- One row of the `event_checkins` table (`uq_event_date_cpf` is the unique
constraint on `(event_date, cpf)`); `birthDate` is the ISO string the route
stores. -/
structure CheckinRow where
  eventDate : Nat
  cpf : String
  birthDate : String
  createdAt : Nat
  updatedAt : Nat
deriving DecidableEq

/-- `_cpf_is_valid`: 11 digits, not all equal, check digits match. -/
def cpfDv (ds : List Nat) : Nat :=
  let n := ds.length
  let s := ((ds.zip (List.range n)).map (fun x => x.1 * (n + 1 - x.2))).sum
  let r := (s * 10) % 11
  if r = 10 then 0 else r

def cpfIsValid (cpfRaw : String) : Bool :=
  let cpf := onlyDigits cpfRaw
  let ds := cpf.data.map digitVal
  if cpf.length ≠ 11 then false
  else if cpf.data.all (fun c => c = cpf.data.headD '0') then false
  else cpf.drop 9 = toString (cpfDv (ds.take 9)) ++ toString (cpfDv (ds.take 10))

/-- `date.fromisoformat` on the canonical `YYYY-MM-DD` form (the only form
the check-in page submits). -/
def parseIsoDate (s : String) : Option Nat :=
  match s.data with
  | [y1, y2, y3, y4, h1, m1, m2, h2, d1, d2] =>
      if h1 = '-' && h2 = '-' && y1.isDigit && y2.isDigit && y3.isDigit &&
         y4.isDigit && m1.isDigit && m2.isDigit && d1.isDigit && d2.isDigit then
        mkDate (digitVal y1 * 1000 + digitVal y2 * 100 + digitVal y3 * 10 + digitVal y4)
          (digitVal m1 * 10 + digitVal m2) (digitVal d1 * 10 + digitVal d2)
      else none
  | _ => none

/-- `_parse_birth_date_to_iso`: accept ISO `YYYY-MM-DD` (returned verbatim)
or `DD/MM/YYYY` (converted to ISO); the `strptime` leniency for unpadded
fields is not exercised by any input considered here. -/
def parseBirthDateToIso (s : String) : Option String :=
  let s := pyStrip s
  if s = "" then none
  else if (parseIsoDate s).isSome then some s
  else (parseBirthDate s).map isoOfEncoded

/-- Response of `POST /checkin/`: a redirect carrying a flash message. -/
inductive CheckinResp
  | backToForm (flashMsg : String)
  | toSuccess (flashMsg : Option String)
deriving DecidableEq

/-- Insert into `event_checkins` under `uq_event_date_cpf`. -/
def dbInsertCheckin (rows : List CheckinRow) (c : CheckinRow) :
    Except Unit (List CheckinRow) :=
  if (rows.find? (fun q => q.eventDate = c.eventDate && q.cpf = c.cpf)).isSome
  then .error () else .ok (rows ++ [c])

/-- The optional matriculas-base cross-check of `checkin_submit`: when a
matrícula with the CPF exists and has a stored birth date, it must match the
submitted ISO date (stored dates are rendered as the ISO strings the DB
returns). -/
def matBirthOk (mats : List MatricRow) (cpf birthIso : String) : Bool :=
  match mats.find? (fun r => r.cpf = cpf) with
  | some m => !(m.birthDate.isSome && m.birthDate.map isoOfEncoded ≠ some birthIso)
  | none => true

/-- `checkin_submit` with the insert raced against a concurrent commit. The
handler wraps the insert in `try`/`except IntegrityError`, rolls back, and
reports the idempotent success. `mats` is the matriculas table (its stored
birth dates rendered as ISO strings, as the DB returns them);
`rowsAtCheck`/`rowsAtIns` are the two snapshots of `event_checkins`. -/
def checkinSubmitRace (mats : List MatricRow)
    (rowsAtCheck rowsAtIns : List CheckinRow)
    (eventDate : Nat) (cpfField birthField : Option String) (now : Nat) :
    List CheckinRow × RaceOut CheckinResp :=
  let cpf := onlyDigits (pyStrip (cpfField.getD ""))
  if !cpfIsValid cpf then
    (rowsAtIns, .resp (.backToForm "Informe um CPF válido."))
  else match parseBirthDateToIso (pyStrip (birthField.getD "")) with
    | none =>
        (rowsAtIns, .resp
          (.backToForm "Informe a data de nascimento válida (YYYY-MM-DD ou DD/MM/YYYY)."))
    | some birthIso =>
        let mOk := matBirthOk mats cpf birthIso
        if !mOk then
          (rowsAtIns, .resp
            (.backToForm "Data de nascimento não confere com a base de multiplicadores."))
        else match rowsAtCheck.find?
            (fun q => q.eventDate = eventDate && q.cpf = cpf) with
          | some ex =>
              (rowsAtIns.map (fun q =>
                 if q.eventDate = ex.eventDate && q.cpf = ex.cpf
                 then { q with birthDate := birthIso, updatedAt := now } else q),
               .resp (.toSuccess (some "Check-in já existia e foi atualizado. ✅")))
          | none =>
              match dbInsertCheckin rowsAtIns ⟨eventDate, cpf, birthIso, now, now⟩ with
              | .ok rows2 => (rows2, .resp (.toSuccess none))
              | .error _ =>
                  (rowsAtIns, .resp
                    (.toSuccess (some "Este CPF já realizou o check-in para esta data. ✅")))

/-! ### `modules/auth/routes.py` and `modules/utils/common.py`: login -/

/-- Parameter list of `generate_token` in `modules/utils/common.py`. -/
def generateTokenParams : List String := ["identity"]

/-- Bind a Python call that passes keyword arguments only: every keyword must
name a parameter and every parameter must end up bound, otherwise the call
raises `TypeError`. -/
def bindKwargs (params : List String) (kwargs : List (String × String)) :
    Option (List String) :=
  if kwargs.all (fun kv => params.contains kv.1) &&
     decide (kwargs.map Prod.fst).Nodup &&
     params.all (fun p => (kwargs.find? (fun kv => kv.1 = p)).isSome)
  then some (params.map (fun p => (((kwargs.find? (fun kv => kv.1 = p)).map Prod.snd).getD "")))
  else none

/-- Model of the third-party `URLSafeTimedSerializer(SECRET_KEY,
salt="auth-token").dumps(payload)`: a sealed timestamped payload signed by
an HMAC keyed from the secret. -/
structure SignedToken where
  sub : String
  issuedAt : Nat
  sig : List Nat
deriving DecidableEq

def signToken (secret : String) (now : Nat) (identity : String) : SignedToken :=
  ⟨identity, now, hmacSha1 (strBytes secret) (strBytes (identity ++ "@" ++ toString now))⟩

/-- Outcome of `POST /login`. -/
inductive LoginOut
  | ok (status : Nat) (user : String) (token : SignedToken)
  | pyError (excName : String)
deriving DecidableEq

/-- `login`: reads `user` from the body and calls
`generate_token(subject=user)` — a keyword call against the parameter list
`["identity"]`. -/
def login (secret : String) (now : Nat) (userField : Option String) : LoginOut :=
  let user := pyStrip ((pyOrStr userField (some "guest")).getD "guest")
  match bindKwargs generateTokenParams [("subject", user)] with
  | none => .pyError "TypeError"
  | some args => .ok 200 user (signToken secret now (args.headD ""))

/-! ### `modules/workato/analytics.py`: feed aggregation

Rows carry the result of the coercion step (`pd.to_datetime(...,
errors="coerce")` / `pd.to_numeric(..., errors="coerce")`): an unparseable
cell is `none` (`NaT`/`NaN`). Monetary amounts are `ℚ` (the source uses
floats; rationals keep the aggregation algebra exact). Dates are encoded as
`y * 10000 + m * 100 + d` and month buckets (`.dt.to_period("M")`) as
`y * 100 + m`. -/

/-- The payment flag cell, which the feed may carry as a boolean, a number,
or a string (`_is_paid` handles all three). -/
inductive PaidVal
  | b (v : Bool)
  | num (v : ℚ)
  | s (v : String)
deriving DecidableEq

/-- Python `int()` truncation of a rational toward zero. -/
def truncQ (q : ℚ) : ℤ := if 0 ≤ q then ⌊q⌋ else ⌈q⌉

/-- `s.replace("não", "nao")`: leftmost, non-overlapping replacement. -/
def replaceNaoGo : Nat → List Char → List Char
  | 0, _ => []
  | _ + 1, [] => []
  | n + 1, c :: cs =>
      if (c :: cs).take 3 = ['n', 'ã', 'o']
      then 'n' :: 'a' :: 'o' :: replaceNaoGo n ((c :: cs).drop 3)
      else c :: replaceNaoGo n cs

def replaceNao (s : String) : String := String.mk (replaceNaoGo s.data.length s.data)

/-- `_is_paid`: broad payment-flag matcher. -/
def isPaid : PaidVal → Bool
  | .b v => v
  | .num q => decide (truncQ q ≠ 0)
  | .s v =>
      let s := replaceNao (pyLower (pyStrip v))
      ["sim", "s", "pago", "paga", "true", "1", "yes", "y"].contains s

/-- One feed row after column normalization and coercion. -/
structure Row where
  dataVenda : Option Nat
  valor : Option ℚ
  idCota : String
  temPagto : PaidVal
  uf : String
  segmento : String
deriving DecidableEq

/-- Resolved configuration of `calcular_metricas`: `PERIOD_START`, the
resolved dedup flag, the current month in America/Sao_Paulo
(`mes_ref_atual`), and whether the segment column is present in the feed. -/
structure FeedCfg where
  periodStart : Nat
  dedup : Bool
  mesRefAtual : Nat
  hasSegmento : Bool
deriving DecidableEq

/-- `df[COL_ID_COTA].astype(str).str.strip()`. -/
def coerceRow (r : Row) : Row := { r with idCota := pyStrip r.idCota }

/-- `df = df[df[COL_DATA_VENDA] >= period_start]`: a missing (`NaT`) date
never satisfies the comparison, so the row is dropped. -/
def periodFilter (cfg : FeedCfg) (rows : List Row) : List Row :=
  rows.filter (fun r => match r.dataVenda with
    | none => false
    | some d => cfg.periodStart ≤ d)

/-- Sale-date sort key (rows reaching the sort all carry a date). -/
def dateKeyOf (r : Row) : Nat := r.dataVenda.getD 0

/-- `df.sort_values(COL_DATA_VENDA)` (a sort by sale date; the source leaves
the order of equal dates unspecified). -/
def sortByDate (rows : List Row) : List Row :=
  rows.insertionSort (fun r s => dateKeyOf r ≤ dateKeyOf s)

/-- `drop_duplicates(subset=[COL_ID_COTA], keep="last")`. -/
def dedupKeepLast (rows : List Row) : List Row :=
  (rows.reverse.foldl
    (fun st r => if st.1.contains r.idCota then st else (r.idCota :: st.1, r :: st.2))
    (([] : List String), ([] : List Row))).2

/-- The working table every aggregate is computed from: coercion, period
filter, and optional dedup by cota id keeping the most recent sale. -/
def workingRows (cfg : FeedCfg) (rows : List Row) : List Row :=
  let base := periodFilter cfg (rows.map coerceRow)
  if cfg.dedup then dedupKeepLast (sortByDate base) else base

/-- Month bucket of a row (`df["mes"]`). -/
def mesOf (r : Row) : Nat := dateKeyOf r / 100

/-- The month buckets, ascending and duplicate-free (`groupby("mes")`). -/
def mesesOf (w : List Row) : List Nat :=
  ((w.map mesOf).dedup).insertionSort (fun a b => a ≤ b)

/-- Rows of a month bucket. -/
def rowsInMes (w : List Row) (m : Nat) : List Row := w.filter (fun r => mesOf r = m)

/-- The paid subset (`pagas`). -/
def pagasOf (w : List Row) : List Row := w.filter (fun r => isPaid r.temPagto)

/-- Column sum with NaN skipped (`sum` / `sum(skipna=True)`). -/
def sumValor (rows : List Row) : ℚ := (rows.map (fun r => r.valor.getD 0)).sum

/-- Count of a group: `nunique` of cota ids under dedup, else `size`. -/
def qtdeOf (cfg : FeedCfg) (rows : List Row) : Nat :=
  if cfg.dedup then ((rows.map Row.idCota).dedup).length else rows.length

/-- `_safe_div`: `None` exactly when the denominator is zero. -/
def safeDiv (a b : ℚ) : Option ℚ := if b = 0 then none else some (a / b)

/-- Round-half-to-even to an integer (Python `round` on the exact value). -/
def rhe (x : ℚ) : ℤ :=
  let f := ⌊x⌋
  if x - f < 1 / 2 then f
  else if 1 / 2 < x - f then f + 1
  else if f % 2 = 0 then f else f + 1

/-- `_jround(x, nd)` on a present value (`ℚ` has no NaN/∞). -/
def jround (nd : Nat) (x : ℚ) : ℚ := (rhe (x * 10 ^ nd) : ℚ) / 10 ^ nd

/-- `_jround` lifted to the optional values `_safe_div` produces. -/
def jroundOpt (nd : Nat) (x : Option ℚ) : Option ℚ := x.map (jround nd)

/-- `_to_millions`. -/
def toMillions (x : ℚ) : ℚ := x / 1000000

/-- One serialized entry of the `monthly` list. -/
structure MonthlyEntry where
  mes : Nat
  venda_rs : Option ℚ
  venda_qtde : Nat
  prod_rs : Option ℚ
  prod_qtde : Nat
  conv_rs_pct : Option ℚ
  conv_qtde_pct : Option ℚ
  ticket_medio : Option ℚ
  venda_rs_m : Option ℚ
  prod_rs_m : Option ℚ
deriving DecidableEq

/-- The serialized entry for one month bucket: the join of the sales and
paid aggregates (`fillna(0.0)` supplies the zeros when the month has no
paid rows), the derived ratios, and the `_jround` serialization. -/
def monthlyEntry (cfg : FeedCfg) (w : List Row) (m : Nat) : MonthlyEntry :=
  let vm := rowsInMes w m
  let pm := rowsInMes (pagasOf w) m
  let vendaRs := sumValor vm
  let prodRs := sumValor pm
  let vendaQ := qtdeOf cfg vm
  let prodQ := qtdeOf cfg pm
  { mes := m
    venda_rs := jroundOpt 2 (some vendaRs)
    venda_qtde := vendaQ
    prod_rs := jroundOpt 2 (some prodRs)
    prod_qtde := prodQ
    conv_rs_pct := jroundOpt 6 (safeDiv prodRs vendaRs)
    conv_qtde_pct := jroundOpt 6 (safeDiv (prodQ : ℚ) (vendaQ : ℚ))
    ticket_medio := jroundOpt 2 (safeDiv prodRs (prodQ : ℚ))
    venda_rs_m := jroundOpt 6 (some (toMillions vendaRs))
    prod_rs_m := jroundOpt 6 (some (toMillions prodRs)) }

/-- The serialized `ytd` object. -/
structure YtdOut where
  venda_rs : Option ℚ
  venda_qtde : Nat
  prod_rs : Option ℚ
  prod_qtde : Nat
  conv_rs_pct : Option ℚ
  conv_qtde_pct : Option ℚ
  venda_rs_m : Option ℚ
  prod_rs_m : Option ℚ
deriving DecidableEq

/-- Year-to-date totals over the working table. -/
def ytdOut (cfg : FeedCfg) (w : List Row) : YtdOut :=
  let pag := pagasOf w
  let vendaTotalRs := sumValor w
  let prodTotalRs := sumValor pag
  let vendaTotalQ := qtdeOf cfg w
  let prodTotalQ := qtdeOf cfg pag
  { venda_rs := jroundOpt 2 (some vendaTotalRs)
    venda_qtde := vendaTotalQ
    prod_rs := jroundOpt 2 (some prodTotalRs)
    prod_qtde := prodTotalQ
    conv_rs_pct := jroundOpt 6 (safeDiv prodTotalRs vendaTotalRs)
    conv_qtde_pct := jroundOpt 6 (safeDiv (prodTotalQ : ℚ) (vendaTotalQ : ℚ))
    venda_rs_m := if vendaTotalRs = 0 then some 0
      else jroundOpt 6 (some (toMillions vendaTotalRs))
    prod_rs_m := if prodTotalRs = 0 then some 0
      else jroundOpt 6 (some (toMillions prodTotalRs)) }

/-- One entry of `cotas_pagas_por_uf`. -/
structure UfEntry where
  uf : String
  qtde : Nat
  rs : Option ℚ
  rsM : Option ℚ
deriving DecidableEq

/-- One entry of the current-month breakdown by state. -/
structure UfMesEntry where
  uf : String
  qtde : Nat
  rs : Option ℚ
deriving DecidableEq

/-- One entry of `cotas_pagas_por_segmento_mes`. -/
structure SegEntry where
  mes : Nat
  segmento : String
  qtde : Nat
  rs : Option ℚ
  rsM : Option ℚ
deriving DecidableEq

/-- The states appearing in a row list, ascending and duplicate-free
(`groupby` sorts its keys). -/
def ufsOf (rows : List Row) : List String :=
  ((rows.map Row.uf).dedup).insertionSort (fun a b => a ≤ b)

/-- Rows of one state. -/
def rowsInUf (rows : List Row) (u : String) : List Row :=
  rows.filter (fun r => r.uf = u)

/-- `cotas_pagas_por_uf` over the paid subset. -/
def ufList (cfg : FeedCfg) (pag : List Row) : List UfEntry :=
  (ufsOf pag).map (fun u =>
    let ru := rowsInUf pag u
    ⟨u, qtdeOf cfg ru, jroundOpt 2 (some (sumValor ru)),
     jroundOpt 6 (some (toMillions (sumValor ru)))⟩)

/-- `cotas_pagas_por_uf_mes_corrente` over the paid rows of the current
month. -/
def ufMesList (cfg : FeedCfg) (pag : List Row) : List UfMesEntry :=
  let pm := pag.filter (fun r => mesOf r = cfg.mesRefAtual)
  (ufsOf pm).map (fun u =>
    let ru := rowsInUf pm u
    ⟨u, qtdeOf cfg ru, jroundOpt 2 (some (sumValor ru))⟩)

/-- `(mes, segmento)` keys ascending and duplicate-free. -/
def segKeysOf (rows : List Row) : List (Nat × String) :=
  ((rows.map (fun r => (mesOf r, r.segmento))).dedup).insertionSort
    (fun a b => a.1 < b.1 ∨ (a.1 = b.1 ∧ a.2 ≤ b.2))

/-- `cotas_pagas_por_segmento_mes` over the paid subset (empty when the
segment column is absent). -/
def segList (cfg : FeedCfg) (pag : List Row) : List SegEntry :=
  if cfg.hasSegmento then
    (segKeysOf pag).map (fun k =>
      let rk := pag.filter (fun r => mesOf r = k.1 && r.segmento = k.2)
      ⟨k.1, k.2, qtdeOf cfg rk, jroundOpt 2 (some (sumValor rk)),
       jroundOpt 6 (some (toMillions (sumValor rk)))⟩)
  else []

/-- The full serialized result of `calcular_metricas`. -/
structure FeedResult where
  status : String
  periodStartUtc : Nat
  ytd : YtdOut
  monthly : List MonthlyEntry
  cotasPagasPorUf : List UfEntry
  mesCorrente : Nat
  cotasPagasPorUfMes : List UfMesEntry
  cotasPagasPorSegmentoMes : List SegEntry
deriving DecidableEq

/-- The aggregation computed from the working table. -/
def calcFromWorking (cfg : FeedCfg) (w : List Row) : FeedResult :=
  { status := "ok"
    periodStartUtc := cfg.periodStart
    ytd := ytdOut cfg w
    monthly := (mesesOf w).map (monthlyEntry cfg w)
    cotasPagasPorUf := ufList cfg (pagasOf w)
    mesCorrente := cfg.mesRefAtual
    cotasPagasPorUfMes := ufMesList cfg (pagasOf w)
    cotasPagasPorSegmentoMes := segList cfg (pagasOf w) }

/-- `calcular_metricas` on a feed whose required columns are present. -/
def calcularMetricas (cfg : FeedCfg) (rows : List Row) : FeedResult :=
  calcFromWorking cfg (workingRows cfg rows)

/-! ### Sanity checks of the crypto embedding against reference digests -/

theorem sha1_empty_reference : sha1Bytes [] =
    [218, 57, 163, 238, 94, 107, 75, 13, 50, 85, 191, 239, 149, 96, 24, 144,
     175, 216, 7, 9] := by decide

theorem sha1_abc_reference : sha1Bytes (strBytes "abc") =
    [169, 153, 62, 54, 71, 6, 129, 106, 186, 62, 37, 113, 120, 80, 194, 108,
     156, 208, 216, 157] := by decide

/-! ### Claim theorems -/

/-- Claim C3 (code_bug evidence): `POST /login` never returns an `ok`
response with a token. The handler calls `generate_token(subject=user)`,
but `generate_token` declares the single parameter `identity`, so the call
raises `TypeError` for every request body, and the framework turns the
uncaught exception into a 500 — contradicting the claim that a signed,
time-limited token bound to the username is returned. -/
theorem login_raises_typeError (secret : String) (now : Nat) (userField : Option String) :
    login secret now userField = .pyError "TypeError" := rfl

/-- Claim C10: on `GET /matricula/gerar_dados` with a syntactically valid
CPF, a valid birth date, and no existing record for that CPF, the handler
body ends without executing any `return` (the creation code is stranded
inside `_json_matricula` after its `return`), so no record is created and
no response value is produced. -/
theorem gerarComDadosGet_new_cpf_falls_off (db : List MatricRow)
    (cpfArg birthArg : String)
    (hcpf : isValidCpfDigits (onlyDigits cpfArg) = true)
    (hb : (parseBirthDate birthArg).isSome = true)
    (hnew : db.find? (fun r => r.cpf = onlyDigits cpfArg) = none) :
    gerarComDadosGet db (some cpfArg) (some birthArg) none = (db, none) := by
  have hne : birthArg ≠ "" := by
    rintro rfl
    rw [show parseBirthDate "" = none from rfl] at hb
    simp at hb
  obtain ⟨b, hbb⟩ := Option.isSome_iff_exists.mp hb
  unfold gerarComDadosGet
  simp [pyOrStr, hne, hcpf, hbb, hnew]

/-- Witness for C10 at a concrete fresh CPF and birth date. -/
theorem gerarComDadosGet_new_cpf_falls_off_witness :
    gerarComDadosGet [] (some "10688046967") (some "04/07/2001") none = ([], none) :=
  gerarComDadosGet_new_cpf_falls_off [] "10688046967" "04/07/2001"
    (by decide) (by decide) (by decide)

/-- Claim C6: the membership-code generator is deterministic — it is a pure
function of the salt/digits/prefix configuration and of the digits of the
national ID, so two runs on the same input yield the identical code; and
national ID `10688046967` with salt `"S"` and `digits = 5` always yields the
5-digit suffix `44263` (code `MR44263`). -/
theorem codeFromCpf_deterministic :
    (∀ (cfg : MatConfig) (a b : String), onlyDigits a = onlyDigits b →
       codeFromCpf cfg a = codeFromCpf cfg b) ∧
    codeFromCpf ⟨"S", 5, "MR"⟩ "10688046967" = "MR44263" := by
  constructor
  · intro cfg a b h
    unfold codeFromCpf
    rw [h]
  · decide

/-- Witness for C6: the generator agrees on a formatted and a bare rendering
of the same CPF (equal digit strings), applied at concrete inputs. -/
theorem codeFromCpf_deterministic_witness :
    codeFromCpf ⟨"S", 5, "MR"⟩ "106.880.469-67" =
      codeFromCpf ⟨"S", 5, "MR"⟩ "10688046967" :=
  codeFromCpf_deterministic.1 ⟨"S", 5, "MR"⟩ "106.880.469-67" "10688046967" (by decide)

/-- Claim C7: generating a membership for a new CPF whose hashed code is
already taken appends the disambiguating suffix `"|1"` to the CPF, rehashes,
and stores the new record under the rehashed code. -/
theorem gerarPost_collision_appends_suffix (cfg : MatConfig) (db : List MatricRow)
    (nid : Nat) (cpfRaw : String)
    (hcpf : isValidCpfDigits (onlyDigits cpfRaw) = true)
    (hnew : db.find? (fun r => r.cpf = onlyDigits cpfRaw) = none)
    (hcoll : (db.find? (fun r => r.code = codeFromCpf cfg (onlyDigits cpfRaw))).isSome = true) :
    gerarPost cfg db nid ⟨some cpfRaw, none, none, none⟩ =
      (db ++ [⟨nid, codeFromCpf cfg (onlyDigits cpfRaw ++ "|1"), onlyDigits cpfRaw,
         none, none, "active"⟩],
       .ok 200 ⟨codeFromCpf cfg (onlyDigits cpfRaw ++ "|1"), onlyDigits cpfRaw,
         none, none, "active"⟩) := by
  unfold gerarPost
  simp [pyOrStr, strTruthy, hcpf, hnew, hcoll, show pyStrip "" = "" from by decide]

/-- Witness for C7: a store already holding code `MR44263` (the hash of CPF
`10688046967` under salt `"S"`) forces the rehash, and the new record is
stored under the rehashed code. -/
theorem gerarPost_collision_appends_suffix_witness :
    gerarPost ⟨"S", 5, "MR"⟩ [⟨7, "MR44263", "99999999999", none, none, "active"⟩]
      8 ⟨some "10688046967", none, none, none⟩ =
      ([⟨7, "MR44263", "99999999999", none, none, "active"⟩,
        ⟨8, codeFromCpf ⟨"S", 5, "MR"⟩ ("10688046967" ++ "|1"), "10688046967",
          none, none, "active"⟩],
       .ok 200 ⟨codeFromCpf ⟨"S", 5, "MR"⟩ ("10688046967" ++ "|1"), "10688046967",
         none, none, "active"⟩) :=
  gerarPost_collision_appends_suffix ⟨"S", 5, "MR"⟩
    [⟨7, "MR44263", "99999999999", none, none, "active"⟩] 8 "10688046967"
    (by decide) (by decide) (by decide)

/-- Claim C9 (counterexample): a malformed, non-empty membership code sent to
`POST /matricula/api/check` is answered with HTTP status 200 (with an error
message in the body), not with status 400 as the claim states for every
validation error. -/
theorem apiCheck_malformed_code_http200 :
    apiCheck [] (some "XX123") =
      ⟨200, false, some "XX123", "Formato inválido. Use MR + 5 dígitos."⟩ := by decide


/-- Claim C9 (amended): on the JSON endpoints `validate`, `api_lembrar`,
`gerar` (POST), `gerar_dados` (POST and GET) and `presenca_api`, a malformed
national ID, membership code, or date is answered with HTTP 400 and a
message; `api_check`, however, answers a malformed non-empty code with HTTP
200 and an error message (400 is reserved for a missing code there). -/
theorem validation_error_statuses
    (db : List MatricRow) (pdb : PresDb) (cfg : MatConfig) (nid : Nat) :
    (∀ c : Option String, formatOk (pyUpper (pyStrip (c.getD ""))) = false →
       validateCode db c =
         ⟨400, false, some "Formato inválido (MR + 5 dígitos)", none, none, none⟩) ∧
    (∀ c b1 b2 : Option String, isValidCpfDigits (onlyDigits (c.getD "")) = false →
       apiLembrar db c b1 b2 =
         ⟨400, false, some "CPF inválido. Informe 11 dígitos.", none, none⟩) ∧
    (∀ c b1 b2 : Option String, isValidCpfDigits (onlyDigits (c.getD "")) = true →
       parseBirthDate ((pyOrStr b1 b2).getD "") = none →
       apiLembrar db c b1 b2 =
         ⟨400, false, some "Data de nascimento inválida. Use DD/MM/AAAA.", none, none⟩) ∧
    (∀ rq : GerarReq, isValidCpfDigits (onlyDigits (rq.cpf.getD "")) = false →
       gerarPost cfg db nid rq =
         (db, .err 400 "CPF inválido. Envie 11 dígitos (com ou sem .-).")) ∧
    (∀ rq : GerarReq, isValidCpfDigits (onlyDigits (rq.cpf.getD "")) = true →
       strTruthy (pyOrStr rq.birthDate rq.birth) = true →
       parseBirthDate ((pyOrStr rq.birthDate rq.birth).getD "") = none →
       gerarPost cfg db nid rq =
         (db, .err 400 "Data de nascimento inválida. Use DD/MM/AAAA.")) ∧
    (∀ c b1 b2 : Option String, isValidCpfDigits (onlyDigits (c.getD "")) = false →
       gerarComDadosPost cfg db nid c b1 b2 =
         (db, .err 400 "CPF inválido. Envie 11 dígitos.")) ∧
    (∀ c b1 b2 : Option String, isValidCpfDigits (onlyDigits (c.getD "")) = true →
       parseBirthDate ((pyOrStr b1 b2).getD "") = none →
       gerarComDadosPost cfg db nid c b1 b2 =
         (db, .err 400 "Data de nascimento inválida. Use DD/MM/AAAA.")) ∧
    (∀ c b1 b2 : Option String, isValidCpfDigits (onlyDigits (c.getD "")) = false →
       gerarComDadosGet db c b1 b2 =
         (db, some (.err 400 "CPF inválido. Envie 11 dígitos."))) ∧
    (∀ c b1 b2 : Option String, isValidCpfDigits (onlyDigits (c.getD "")) = true →
       parseBirthDate ((pyOrStr b1 b2).getD "") = none →
       gerarComDadosGet db c b1 b2 =
         (db, some (.err 400 "Data de nascimento inválida. Use DD/MM/AAAA."))) ∧
    (∀ (a : Option String) (meta : ReqMeta),
       formatOk (pyUpper (pyStrip (a.getD ""))) = false →
       presencaApi pdb a meta =
         (pdb, ⟨400, false, some "Formato inválido", none, none⟩)) ∧
    (∀ c : Option String, pyStrip (pyUpper (c.getD "")) ≠ "" →
       formatOk (pyStrip (pyUpper (c.getD ""))) = false →
       apiCheck db c = ⟨200, false, some (pyStrip (pyUpper (c.getD ""))),
         "Formato inválido. Use MR + 5 dígitos."⟩) := by
  refine ⟨?_, ?_, ?_, ?_, ?_, ?_, ?_, ?_, ?_, ?_, ?_⟩
  · intro c h
    unfold validateCode
    simp [h]
  · intro c b1 b2 h
    unfold apiLembrar
    simp [h]
  · intro c b1 b2 h1 h2
    unfold apiLembrar
    simp [h1, h2]
  · intro rq h
    unfold gerarPost
    simp [h]
  · intro rq h1 h2 h3
    unfold gerarPost
    simp [h1, h2, h3]
  · intro c b1 b2 h
    unfold gerarComDadosPost
    simp [h]
  · intro c b1 b2 h1 h2
    unfold gerarComDadosPost
    simp [h1, h2]
  · intro c b1 b2 h
    unfold gerarComDadosGet
    simp [h]
  · intro c b1 b2 h1 h2
    unfold gerarComDadosGet
    simp [h1, h2]
  · intro a meta h
    unfold presencaApi
    simp [h]
  · intro c h1 h2
    unfold apiCheck
    simp [h1, h2]

/-- Witness for the amended C9, instantiating every conjunct at a concrete
malformed input against an empty store. -/
theorem validation_error_statuses_witness :
    (validateCode [] (some "XX123") =
       ⟨400, false, some "Formato inválido (MR + 5 dígitos)", none, none, none⟩) ∧
    (apiLembrar [] (some "123") none none =
       ⟨400, false, some "CPF inválido. Informe 11 dígitos.", none, none⟩) ∧
    (apiLembrar [] (some "10688046967") (some "31/02/2001") none =
       ⟨400, false, some "Data de nascimento inválida. Use DD/MM/AAAA.", none, none⟩) ∧
    (gerarPost ⟨"S", 5, "MR"⟩ [] 1 ⟨some "123", none, none, none⟩ =
       ([], .err 400 "CPF inválido. Envie 11 dígitos (com ou sem .-).")) ∧
    (gerarPost ⟨"S", 5, "MR"⟩ [] 1 ⟨some "10688046967", some "2001-07-04", none, none⟩ =
       ([], .err 400 "Data de nascimento inválida. Use DD/MM/AAAA.")) ∧
    (gerarComDadosPost ⟨"S", 5, "MR"⟩ [] 1 (some "123") none none =
       ([], .err 400 "CPF inválido. Envie 11 dígitos.")) ∧
    (gerarComDadosPost ⟨"S", 5, "MR"⟩ [] 1 (some "10688046967") (some "99/99/2001") none =
       ([], .err 400 "Data de nascimento inválida. Use DD/MM/AAAA.")) ∧
    (gerarComDadosGet [] (some "123") none none =
       ([], some (.err 400 "CPF inválido. Envie 11 dígitos."))) ∧
    (gerarComDadosGet [] (some "10688046967") (some "not-a-date") none =
       ([], some (.err 400 "Data de nascimento inválida. Use DD/MM/AAAA."))) ∧
    (presencaApi ⟨[], []⟩ (some "XX123") ⟨1, 1, "ip", "ua"⟩ =
       (⟨[], []⟩, ⟨400, false, some "Formato inválido", none, none⟩)) ∧
    (apiCheck [] (some "MR12") = ⟨200, false, some "MR12",
       "Formato inválido. Use MR + 5 dígitos."⟩) := by
  have h := validation_error_statuses [] ⟨[], []⟩ ⟨"S", 5, "MR"⟩ 1
  exact ⟨h.1 (some "XX123") (by decide),
    h.2.1 (some "123") none none (by decide),
    h.2.2.1 (some "10688046967") (some "31/02/2001") none (by decide) (by decide),
    h.2.2.2.1 ⟨some "123", none, none, none⟩ (by decide),
    h.2.2.2.2.1 ⟨some "10688046967", some "2001-07-04", none, none⟩ (by decide)
      (by decide) (by decide),
    h.2.2.2.2.2.1 (some "123") none none (by decide),
    h.2.2.2.2.2.2.1 (some "10688046967") (some "99/99/2001") none (by decide) (by decide),
    h.2.2.2.2.2.2.2.1 (some "123") none none (by decide),
    h.2.2.2.2.2.2.2.2.1 (some "10688046967") (some "not-a-date") none (by decide) (by decide),
    h.2.2.2.2.2.2.2.2.2.1 (some "XX123") ⟨1, 1, "ip", "ua"⟩ (by decide),
    h.2.2.2.2.2.2.2.2.2.2 (some "MR12") (by decide) (by decide)⟩

/-! ### Attendance uniqueness lemmas (C1) -/

theorem presPairs_append (rows : List PresRow) (p : PresRow) :
    presPairs (rows ++ [p]) = presPairs rows ++ [(p.matriculaId, p.dateKey)] := by
  simp [presPairs]

theorem pair_not_mem_of_find_none (rows : List PresRow) (mid day : Nat)
    (h : rows.find? (fun p => p.matriculaId = mid && p.dateKey = day) = none) :
    (mid, day) ∉ presPairs rows := by
  intro hmem
  simp only [presPairs, List.mem_map, Prod.mk.injEq] at hmem
  rcases hmem with ⟨p, hp, h1, h2⟩
  have hnp := List.find?_eq_none.mp h p hp
  simp [h1, h2] at hnp

theorem presInsert_nodup (rows : List PresRow) (p : PresRow)
    (hnd : (presPairs rows).Nodup)
    (h : rows.find? (fun q => q.matriculaId = p.matriculaId &&
        q.dateKey = p.dateKey) = none) :
    (presPairs (rows ++ [p])).Nodup := by
  rw [presPairs_append]
  refine List.Nodup.append hnd (List.nodup_singleton _) ?_
  intro x hx hx'
  simp only [List.mem_singleton] at hx'
  subst hx'
  exact pair_not_mem_of_find_none rows p.matriculaId p.dateKey h hx

theorem attStep_preserves (db : PresDb) (rq : AttReq) (h : presUnique db) :
    presUnique (attStep db rq) := by
  cases rq with
  | api a meta =>
      unfold attStep presencaApi
      dsimp only
      split
      · exact h
      · split
        · exact h
        · split
          · exact h
          · exact presInsert_nodup _ _ h (by assumption)
  | page a meta =>
      unfold attStep presencaPage
      dsimp only
      split
      · exact h
      · split
        · exact h
        · split
          · exact h
          · split
            · exact h
            · split
              · exact h
              · exact presInsert_nodup _ _ h (by assumption)

theorem attRun_preserves (db : PresDb) (reqs : List AttReq) (h : presUnique db) :
    presUnique (attRun db reqs) := by
  induction reqs generalizing db with
  | nil => exact h
  | cons r rs ih =>
      simp only [attRun, List.foldl_cons]
      exact ih (attStep db r) (attStep_preserves db r h)

theorem presencaApi_already (db : PresDb) (arg : Option String) (meta : ReqMeta)
    (m : MatricRow)
    (hfmt : formatOk (pyUpper (pyStrip (arg.getD ""))) = true)
    (hfind : db.matriculas.find?
        (fun r => r.code = pyUpper (pyStrip (arg.getD ""))) = some m)
    (hex : (db.presencas.find?
        (fun p => p.matriculaId = m.id && p.dateKey = meta.today)).isSome = true) :
    presencaApi db arg meta = (db, ⟨200, true, none, some true, some m.code⟩) := by
  obtain ⟨p, hp⟩ := Option.isSome_iff_exists.mp hex
  unfold presencaApi
  simp [hfmt, hfind, hp]

/-- Claim C1: in every database state reachable through the attendance
endpoints from a state satisfying the `uq_presenca_por_dia` invariant, at
most one attendance row exists per `(matricula_id, date_key)` pair; and a
repeated submission for a pair that already has a row leaves the stored rows
unchanged and answers the idempotent success (`ok` with `already = true`),
not an error. -/
theorem attendance_pair_unique (db0 : PresDb) (h0 : presUnique db0)
    (reqs : List AttReq) :
    presUnique (attRun db0 reqs) ∧
    (∀ (arg : Option String) (meta : ReqMeta) (m : MatricRow),
      formatOk (pyUpper (pyStrip (arg.getD ""))) = true →
      (attRun db0 reqs).matriculas.find?
          (fun r => r.code = pyUpper (pyStrip (arg.getD ""))) = some m →
      ((attRun db0 reqs).presencas.find?
          (fun p => p.matriculaId = m.id && p.dateKey = meta.today)).isSome = true →
      presencaApi (attRun db0 reqs) arg meta =
        (attRun db0 reqs, ⟨200, true, none, some true, some m.code⟩)) :=
  ⟨attRun_preserves db0 reqs h0,
   fun arg meta m h1 h2 h3 => presencaApi_already (attRun db0 reqs) arg meta m h1 h2 h3⟩

/-- Witness for C1: one seeded matrícula, one successful API registration,
then a repeated submission on the same day answers `already = true` and
leaves the database unchanged. -/
theorem attendance_pair_unique_witness :
    presUnique (attRun ⟨[⟨1, "MR12345", "10688046967", none, none, "active"⟩], []⟩
      [.api (some "MR12345") ⟨5, 50, "ip", "ua"⟩]) ∧
    presencaApi (attRun ⟨[⟨1, "MR12345", "10688046967", none, none, "active"⟩], []⟩
        [.api (some "MR12345") ⟨5, 50, "ip", "ua"⟩]) (some "MR12345") ⟨5, 60, "ip2", "ua2"⟩ =
      (attRun ⟨[⟨1, "MR12345", "10688046967", none, none, "active"⟩], []⟩
        [.api (some "MR12345") ⟨5, 50, "ip", "ua"⟩],
       ⟨200, true, none, some true, some "MR12345"⟩) := by
  have h := attendance_pair_unique
    ⟨[⟨1, "MR12345", "10688046967", none, none, "active"⟩], []⟩
    (by simp [presUnique, presPairs]) [.api (some "MR12345") ⟨5, 50, "ip", "ua"⟩]
  exact ⟨h.1, h.2 (some "MR12345") ⟨5, 60, "ip2", "ua2"⟩
    ⟨1, "MR12345", "10688046967", none, none, "active"⟩ (by decide) (by decide) (by decide)⟩

/-! ### C2: behaviour on a raced uniqueness violation -/

theorem formatOk_ne_empty {s : String} (h : formatOk s = true) : s ≠ "" := by
  rintro rfl
  rw [show formatOk "" = false from by decide] at h
  exact Bool.noConfusion h

/-- Claim C2 (counterexample): the attendance page handler does not catch
the uniqueness violation. With a row for the pair committed between the
handler's existence check (which saw no row) and its insert, the insert
raises `IntegrityError` and the handler propagates it (`.exc`, an unhandled
500) instead of answering the idempotent success. -/
theorem presencaPage_race_uncaught :
    presencaPageRace [⟨1, "MR12345", "10688046967", none, none, "active"⟩]
      [] [⟨1, 5, 40, "ip0", "ua0", "link"⟩] (some "MR12345") ⟨5, 50, "ip", "ua"⟩ =
      ([⟨1, 5, 40, "ip0", "ua0", "link"⟩], .exc) := by decide

/-- Claim C2 (amended): only the event check-in handler (`checkin_submit`)
catches the uniqueness-constraint violation and turns it into the idempotent
success; the attendance handlers (`presenca_page`, `presenca_api`) have no
handler for it, so a raced duplicate insert propagates the violation as an
unhandled exception. -/
theorem uniqueness_violation_handling :
    (∀ (mats : List MatricRow) (rc ri : List CheckinRow) (ev : Nat)
        (cpfField birthField : Option String) (now : Nat) (iso : String),
      cpfIsValid (onlyDigits (pyStrip (cpfField.getD ""))) = true →
      parseBirthDateToIso (pyStrip (birthField.getD "")) = some iso →
      matBirthOk mats (onlyDigits (pyStrip (cpfField.getD ""))) iso = true →
      rc.find? (fun q => q.eventDate = ev &&
          q.cpf = onlyDigits (pyStrip (cpfField.getD ""))) = none →
      (ri.find? (fun q => q.eventDate = ev &&
          q.cpf = onlyDigits (pyStrip (cpfField.getD "")))).isSome = true →
      checkinSubmitRace mats rc ri ev cpfField birthField now =
        (ri, .resp (.toSuccess
          (some "Este CPF já realizou o check-in para esta data. ✅")))) ∧
    (∀ (mats : List MatricRow) (rc ri : List PresRow) (arg : Option String)
        (meta : ReqMeta) (m : MatricRow),
      formatOk (pyUpper (pyStrip (arg.getD ""))) = true →
      mats.find? (fun r => r.code = pyUpper (pyStrip (arg.getD ""))) = some m →
      m.status = "active" →
      rc.find? (fun p => p.matriculaId = m.id && p.dateKey = meta.today) = none →
      (ri.find? (fun p => p.matriculaId = m.id && p.dateKey = meta.today)).isSome = true →
      presencaPageRace mats rc ri arg meta = (ri, .exc)) ∧
    (∀ (mats : List MatricRow) (rc ri : List PresRow) (arg : Option String)
        (meta : ReqMeta) (m : MatricRow),
      formatOk (pyUpper (pyStrip (arg.getD ""))) = true →
      mats.find? (fun r => r.code = pyUpper (pyStrip (arg.getD ""))) = some m →
      rc.find? (fun p => p.matriculaId = m.id && p.dateKey = meta.today) = none →
      (ri.find? (fun p => p.matriculaId = m.id && p.dateKey = meta.today)).isSome = true →
      presencaApiRace mats rc ri arg meta = (ri, .exc)) := by
  refine ⟨?_, ?_, ?_⟩
  · intro mats rc ri ev cpfField birthField now iso h1 h2 h3 h4 h5
    unfold checkinSubmitRace dbInsertCheckin
    simp [h1, h2, h3, h4, h5]
  · intro mats rc ri arg meta m h1 h2 h3 h4 h5
    unfold presencaPageRace dbInsertPresenca
    simp [h1, h2, h3, h4, h5, formatOk_ne_empty h1]
  · intro mats rc ri arg meta m h1 h2 h4 h5
    unfold presencaApiRace dbInsertPresenca
    simp [h1, h2, h4, h5]

/-- Witness for the amended C2 at concrete raced inserts: the check-in
handler reports success, both attendance handlers propagate the violation. -/
theorem uniqueness_violation_handling_witness :
    (checkinSubmitRace [] [] [⟨100, "10688046967", "2001-07-04", 1, 1⟩]
       100 (some "10688046967") (some "04/07/2001") 2 =
       ([⟨100, "10688046967", "2001-07-04", 1, 1⟩],
        .resp (.toSuccess (some "Este CPF já realizou o check-in para esta data. ✅")))) ∧
    (presencaPageRace [⟨1, "MR12345", "10688046967", none, none, "active"⟩]
       [] [⟨1, 5, 40, "ip0", "ua0", "link"⟩] (some "MR12345") ⟨5, 50, "ip", "ua"⟩ =
       ([⟨1, 5, 40, "ip0", "ua0", "link"⟩], .exc)) ∧
    (presencaApiRace [⟨1, "MR12345", "10688046967", none, none, "active"⟩]
       [] [⟨1, 5, 40, "ip0", "ua0", "api"⟩] (some "MR12345") ⟨5, 50, "ip", "ua"⟩ =
       ([⟨1, 5, 40, "ip0", "ua0", "api"⟩], .exc)) :=
  ⟨uniqueness_violation_handling.1 [] [] [⟨100, "10688046967", "2001-07-04", 1, 1⟩]
     100 (some "10688046967") (some "04/07/2001") 2 "2001-07-04"
     (by decide) (by decide) (by decide) (by decide) (by decide),
   uniqueness_violation_handling.2.1 [⟨1, "MR12345", "10688046967", none, none, "active"⟩]
     [] [⟨1, 5, 40, "ip0", "ua0", "link"⟩] (some "MR12345") ⟨5, 50, "ip", "ua"⟩
     ⟨1, "MR12345", "10688046967", none, none, "active"⟩
     (by decide) (by decide) (by decide) (by decide) (by decide),
   uniqueness_violation_handling.2.2 [⟨1, "MR12345", "10688046967", none, none, "active"⟩]
     [] [⟨1, 5, 40, "ip0", "ua0", "api"⟩] (some "MR12345") ⟨5, 50, "ip", "ua"⟩
     ⟨1, "MR12345", "10688046967", none, none, "active"⟩
     (by decide) (by decide) (by decide) (by decide)⟩

/-! ### Feed aggregation lemmas (C4, C5, C8) -/

theorem sum_ite_not_mem (ks : List Nat) (a : Nat) (c : ℚ) (ha : a ∉ ks) :
    (ks.map (fun m => if a = m then c else 0)).sum = 0 := by
  induction ks with
  | nil => simp
  | cons b ks ih =>
      have hne : a ≠ b := fun h => ha (h ▸ List.mem_cons_self b ks)
      have ha' : a ∉ ks := fun h => ha (List.mem_cons_of_mem b h)
      simp [hne, ih ha']

theorem sum_ite_mem (ks : List Nat) (a : Nat) (c : ℚ) (hnd : ks.Nodup) (ha : a ∈ ks) :
    (ks.map (fun m => if a = m then c else 0)).sum = c := by
  induction ks with
  | nil => cases ha
  | cons b ks ih =>
      rcases List.mem_cons.mp ha with h | h
      · subst h
        simp [sum_ite_not_mem ks a c (List.nodup_cons.mp hnd).1]
      · have hne : a ≠ b := fun hab => (List.nodup_cons.mp hnd).1 (hab ▸ h)
        simp [hne, ih (List.nodup_cons.mp hnd).2 h]

/-- Summing a quantity fiberwise over a duplicate-free key list covering all
keys of the rows equals summing it over the rows. -/
theorem sum_fiberwise (ks : List Nat) (l : List Row) (f : Row → ℚ) (k : Row → Nat)
    (hnd : ks.Nodup) (hmem : ∀ r ∈ l, k r ∈ ks) :
    (ks.map (fun m => ((l.filter (fun r => k r = m)).map f).sum)).sum
      = (l.map f).sum := by
  induction l with
  | nil => simp
  | cons x l ih =>
      have hx := hmem x (List.mem_cons_self x l)
      have hl : ∀ r ∈ l, k r ∈ ks := fun r hr => hmem r (List.mem_cons_of_mem x hr)
      have hstep : (fun m => (((x :: l).filter (fun r => k r = m)).map f).sum)
          = fun m => (if k x = m then f x else 0) +
              ((l.filter (fun r => k r = m)).map f).sum := by
        funext m
        by_cases h : k x = m
        · simp [List.filter_cons, h]
        · simp [List.filter_cons, h]
      rw [hstep, List.sum_map_add, sum_ite_mem ks (k x) (f x) hnd hx, ih hl]
      simp

theorem mesesOf_nodup (w : List Row) : (mesesOf w).Nodup := by
  unfold mesesOf
  exact (List.perm_insertionSort _ _).nodup_iff.mpr (List.nodup_dedup _)

theorem mes_mem_mesesOf {w : List Row} {r : Row} (hr : r ∈ w) : mesOf r ∈ mesesOf w := by
  unfold mesesOf
  rw [List.mem_insertionSort, List.mem_dedup]
  exact List.mem_map_of_mem mesOf hr

/-- Claim C4 (counterexample): with paid amounts 0.004 in January and 0.004
in February, every monthly `prod_rs` rounds to 0 while `ytd.prod_rs` rounds
0.008 to 0.01, so the sum of the reported monthly paid amounts differs from
the reported year-to-date paid amount. -/
theorem feed_monthly_prod_sum_ne_ytd :
    (((calcularMetricas ⟨20250101, true, 202501, false⟩
        [⟨some 20250115, some (1/250), "a", .s "sim", "PR", ""⟩,
         ⟨some 20250215, some (1/250), "b", .s "sim", "PR", ""⟩]).monthly.map
       (fun e => e.prod_rs.getD 0)).sum = 0) ∧
    ((calcularMetricas ⟨20250101, true, 202501, false⟩
        [⟨some 20250115, some (1/250), "a", .s "sim", "PR", ""⟩,
         ⟨some 20250215, some (1/250), "b", .s "sim", "PR", ""⟩]).ytd.prod_rs
      = some (1/100)) ∧ (0 : ℚ) ≠ 1/100 := by
  refine ⟨by decide, by decide, by norm_num⟩

/-- Claim C4 (amended): the identity holds for the exact (unrounded)
aggregates — the monthly paid sums partition the year-to-date paid total —
and the serialized `prod_rs` fields are exactly these values after the
per-field rounding to 2 decimals, so the reported fields satisfy the
identity only up to rounding. -/
theorem feed_monthly_prod_partition (cfg : FeedCfg) (rows : List Row) :
    ((mesesOf (workingRows cfg rows)).map
       (fun m => sumValor (rowsInMes (pagasOf (workingRows cfg rows)) m))).sum
      = sumValor (pagasOf (workingRows cfg rows)) ∧
    (calcularMetricas cfg rows).monthly.map (fun e => e.prod_rs)
      = (mesesOf (workingRows cfg rows)).map
          (fun m => some (jround 2
            (sumValor (rowsInMes (pagasOf (workingRows cfg rows)) m)))) ∧
    (calcularMetricas cfg rows).ytd.prod_rs
      = some (jround 2 (sumValor (pagasOf (workingRows cfg rows)))) := by
  refine ⟨?_, ?_, rfl⟩
  · have hnd := mesesOf_nodup (workingRows cfg rows)
    have hmem : ∀ r ∈ pagasOf (workingRows cfg rows),
        mesOf r ∈ mesesOf (workingRows cfg rows) :=
      fun r hr => mes_mem_mesesOf (List.mem_of_mem_filter hr)
    simpa [sumValor, rowsInMes] using
      sum_fiberwise (mesesOf (workingRows cfg rows)) (pagasOf (workingRows cfg rows))
        (fun r => r.valor.getD 0) mesOf hnd hmem
  · simp [calcularMetricas, calcFromWorking, monthlyEntry, jroundOpt, List.map_map]

/-- `_jround` after `_safe_div` is null exactly on a zero denominator. -/
theorem jroundOpt_safeDiv (nd : Nat) (a b : ℚ) :
    jroundOpt nd (safeDiv a b) = if b = 0 then none else some (jround nd (a / b)) := by
  unfold jroundOpt safeDiv
  split <;> simp

/-- Claim C5 (counterexample): a month bucket whose only sale has amount -5
(no paid rows) reports `conv_rs_pct = 0`, a non-null value, although its
total -5 is not greater than 0 — the null case occurs only at total = 0. -/
theorem feed_conv_nonnull_at_negative_total :
    ((calcularMetricas ⟨20250101, true, 202501, false⟩
        [⟨some 20250115, some (-5), "a", .s "nao", "PR", ""⟩]).monthly.map
      (fun e => (e.venda_rs, e.conv_rs_pct)))
      = [(some (-5), some 0)] ∧ ¬((0 : ℚ) < -5) := by
  refine ⟨by decide, by norm_num⟩

/-- Claim C5 (amended): every reported conversion rate (by value and by
count, monthly and year-to-date) equals the quotient paid/total rounded to 6
decimals exactly when the total is nonzero (including negative totals), and
is null exactly when the total is zero. -/
theorem feed_conv_null_iff_zero_total (cfg : FeedCfg) (rows : List Row) :
    (∀ e ∈ (calcularMetricas cfg rows).monthly,
       e.conv_rs_pct =
         (if sumValor (rowsInMes (workingRows cfg rows) e.mes) = 0 then none
          else some (jround 6
            (sumValor (rowsInMes (pagasOf (workingRows cfg rows)) e.mes) /
             sumValor (rowsInMes (workingRows cfg rows) e.mes)))) ∧
       e.conv_qtde_pct =
         (if (qtdeOf cfg (rowsInMes (workingRows cfg rows) e.mes) : ℚ) = 0 then none
          else some (jround 6
            ((qtdeOf cfg (rowsInMes (pagasOf (workingRows cfg rows)) e.mes) : ℚ) /
             (qtdeOf cfg (rowsInMes (workingRows cfg rows) e.mes) : ℚ))))) ∧
    ((calcularMetricas cfg rows).ytd.conv_rs_pct =
       (if sumValor (workingRows cfg rows) = 0 then none
        else some (jround 6 (sumValor (pagasOf (workingRows cfg rows)) /
          sumValor (workingRows cfg rows))))) ∧
    ((calcularMetricas cfg rows).ytd.conv_qtde_pct =
       (if (qtdeOf cfg (workingRows cfg rows) : ℚ) = 0 then none
        else some (jround 6 ((qtdeOf cfg (pagasOf (workingRows cfg rows)) : ℚ) /
          (qtdeOf cfg (workingRows cfg rows) : ℚ))))) := by
  refine ⟨?_, ?_, ?_⟩
  · intro e he
    simp only [calcularMetricas, calcFromWorking, List.mem_map] at he
    obtain ⟨m, hm, rfl⟩ := he
    exact ⟨by simp [monthlyEntry, jroundOpt_safeDiv],
           by simp [monthlyEntry, jroundOpt_safeDiv]⟩
  · simpa [calcularMetricas, calcFromWorking, ytdOut] using
      jroundOpt_safeDiv 6 (sumValor (pagasOf (workingRows cfg rows)))
        (sumValor (workingRows cfg rows))
  · simpa [calcularMetricas, calcFromWorking, ytdOut] using
      jroundOpt_safeDiv 6 (qtdeOf cfg (pagasOf (workingRows cfg rows)) : ℚ)
        (qtdeOf cfg (workingRows cfg rows) : ℚ)

/-- Witness for the amended C5 at a concrete feed with a nonzero and a
zero-denominator case. -/
theorem feed_conv_null_iff_zero_total_witness :
    (monthlyEntry ⟨20250101, true, 202501, false⟩
       (workingRows ⟨20250101, true, 202501, false⟩
         [⟨some 20250115, some (-5), "a", .s "nao", "PR", ""⟩]) 202501).conv_rs_pct
      = (if sumValor (rowsInMes (workingRows ⟨20250101, true, 202501, false⟩
            [⟨some 20250115, some (-5), "a", .s "nao", "PR", ""⟩]) 202501) = 0 then none
         else some (jround 6
           (sumValor (rowsInMes (pagasOf (workingRows ⟨20250101, true, 202501, false⟩
              [⟨some 20250115, some (-5), "a", .s "nao", "PR", ""⟩])) 202501) /
            sumValor (rowsInMes (workingRows ⟨20250101, true, 202501, false⟩
              [⟨some 20250115, some (-5), "a", .s "nao", "PR", ""⟩]) 202501)))) :=
  ((feed_conv_null_iff_zero_total ⟨20250101, true, 202501, false⟩
      [⟨some 20250115, some (-5), "a", .s "nao", "PR", ""⟩]).1
    (monthlyEntry ⟨20250101, true, 202501, false⟩
      (workingRows ⟨20250101, true, 202501, false⟩
        [⟨some 20250115, some (-5), "a", .s "nao", "PR", ""⟩]) 202501)
    (by decide)).1

/-- Claim C8: a feed row whose sale date cannot be parsed (coerced to
missing) is excluded from every month bucket and every aggregate — the
result is identical to the result without the row — and the aggregation
still completes with status ok. -/
theorem feed_unparseable_date_row_excluded (cfg : FeedCfg) (xs ys : List Row) (r : Row)
    (hr : r.dataVenda = none) :
    calcularMetricas cfg (xs ++ r :: ys) = calcularMetricas cfg (xs ++ ys) ∧
    (calcularMetricas cfg (xs ++ r :: ys)).status = "ok" := by
  have hc : (coerceRow r).dataVenda = none := by simp [coerceRow, hr]
  have key : workingRows cfg (xs ++ r :: ys) = workingRows cfg (xs ++ ys) := by
    unfold workingRows periodFilter
    simp [List.filter_append, List.filter_cons, hc]
  constructor
  · unfold calcularMetricas
    rw [key]
  · rfl

/-- Witness for C8: appending a row with an unparseable date changes
nothing. -/
theorem feed_unparseable_date_row_excluded_witness :
    calcularMetricas ⟨20250101, true, 202501, false⟩
        ([⟨some 20250115, some 3, "a", .s "sim", "PR", ""⟩] ++
          ⟨none, some 7, "x", .s "sim", "PR", ""⟩ :: []) =
      calcularMetricas ⟨20250101, true, 202501, false⟩
        ([⟨some 20250115, some 3, "a", .s "sim", "PR", ""⟩] ++ []) ∧
    (calcularMetricas ⟨20250101, true, 202501, false⟩
        ([⟨some 20250115, some 3, "a", .s "sim", "PR", ""⟩] ++
          ⟨none, some 7, "x", .s "sim", "PR", ""⟩ :: [])).status = "ok" :=
  feed_unparseable_date_row_excluded ⟨20250101, true, 202501, false⟩
    [⟨some 20250115, some 3, "a", .s "sim", "PR", ""⟩] []
    ⟨none, some 7, "x", .s "sim", "PR", ""⟩ rfl

end App
